import Mathlib

/-!
Verification development for the duck-rage secret-provisioning extension
(`src/lib.rs`).  The Rust source is shallowly embedded: pure functions become
Lean functions on `String`/`Int`/`List`, the table-function poll
(`RageVTab::func`) becomes an explicit state-passing function on the `done`
flag, external collaborators (the SQL executor behind the shared connection,
and the JSON parser applied to the decrypted payload) become explicit function
parameters, and fallible code returns `Except`.  Machine integers (`i32`) are
embedded as `Int` with the `2 ^ 31` range bounds made explicit where the code
checks them.
-/

namespace DuckRage

/-- The single-quote character (code point 39). -/
def sqc : Char := Char.ofNat 39

/-- Embeds `escape_sql_string` (src/lib.rs:280-282): `s.replace('\x27', "''")`,
doubling every single-quote character and leaving every other character
unchanged. -/
def escape_sql_string (s : String) : String :=
  String.mk (s.data.flatMap (fun c => if c = sqc then [sqc, sqc] else [c]))

/-- Embeds the `DbType` enum (src/lib.rs:70-74). -/
inductive DbType where
  | Postgres
  | Mysql
deriving DecidableEq, Repr

/-- Embeds `DbProvider::secret_type` for the two concrete providers selected by
`DbType::provider` (src/lib.rs:55-83): the DuckDB secret `TYPE` keyword of each
backend. -/
def secret_type : DbType → String
  | DbType.Postgres => "postgres"
  | DbType.Mysql => "mysql"

/-- Embeds the default `DbProvider::create_secret_sql` (src/lib.rs:31-48): the
full `CREATE OR REPLACE SECRET` statement.  The Rust `format!` string with its
backslash line-continuations concatenates to a single line; every string field
goes through `escape_sql_string`, and the port is interpolated with `Display`
for `i32`, matched here by `toString : Int → String` (identical decimal
rendering). -/
def create_secret_sql (typ host : String) (port : Int)
    (database user password : String) : String :=
  "CREATE OR REPLACE SECRET duck_rage_" ++ escape_sql_string database
    ++ " ( TYPE " ++ typ
    ++ ", HOST " ++ String.singleton sqc ++ escape_sql_string host ++ String.singleton sqc
    ++ ", PORT " ++ toString port
    ++ ", DATABASE " ++ String.singleton sqc ++ escape_sql_string database ++ String.singleton sqc
    ++ ", USER " ++ String.singleton sqc ++ escape_sql_string user ++ String.singleton sqc
    ++ ", PASSWORD " ++ String.singleton sqc ++ escape_sql_string password ++ String.singleton sqc
    ++ " )"

/-- Embeds the `USAGE` constant of `RageVTab::bind` (src/lib.rs:135). -/
def USAGE : String :=
  "Usage: duck_rage(\n  db_type      VARCHAR  -- 'postgres' or 'mysql'\n  host         VARCHAR  -- hostname or IP\n  port         INTEGER  -- e.g. 5432\n  database     VARCHAR  -- database name\n  user         VARCHAR  -- login user\n  secrets_file VARCHAR  -- path to age-encrypted JSON file\n  secret_key   VARCHAR  -- JSON key whose value is the password\n  identity_file VARCHAR -- path to age identity file (rage-keygen output)\n)"

/-- Embeds `str::to_ascii_lowercase`: maps `A`-`Z` to `a`-`z` and leaves every
other character unchanged.  `Char.toLower` performs exactly this ASCII-only
mapping. -/
def to_ascii_lowercase (s : String) : String :=
  String.mk (s.data.map Char.toLower)

/-- Embeds `impl FromStr for DbType` (src/lib.rs:85-98).  Note the error
message embeds `other`, the __lowercased__ input. -/
def DbType.from_str (s : String) : Except String DbType :=
  let l := to_ascii_lowercase s
  if l = "postgres" ∨ l = "postgresql" then Except.ok DbType.Postgres
  else if l = "mysql" then Except.ok DbType.Mysql
  else Except.error ("Unknown db_type '" ++ l ++ "'. Supported: postgres, mysql")

/-- Embeds the db_type step of `RageVTab::bind` (src/lib.rs:137-138): the
`FromStr` error is wrapped with the usage synopsis. -/
def bind_db_type (s : String) : Except String DbType :=
  match DbType.from_str s with
  | Except.ok t => Except.ok t
  | Except.error e => Except.error (e ++ "\n\n" ++ USAGE)

/-- Decimal value of a list of digit characters (most significant first). -/
def digitsVal (ds : List Char) : Nat :=
  ds.foldl (fun a c => 10 * a + (c.toNat - 48)) 0

/-- Helper for `i32_from_str`: parses a nonempty all-digit tail, with the
`i32` range check.  Rust's `from_str` accumulates with checked arithmetic; for
a nonnegative digit accumulation every intermediate value is at most the final
value, so checking the final value against the bound is equivalent. -/
def i32_from_str_digits (neg : Bool) (ds : List Char) : Option Int :=
  if ds = [] then none
  else if ds.all Char.isDigit then
    let v : Nat := digitsVal ds
    if neg then (if v ≤ 2 ^ 31 then some (-(v : Int)) else none)
    else (if v < 2 ^ 31 then some (v : Int) else none)
  else none

/-- Embeds `<i32 as FromStr>::from_str`, as invoked by `RageVTab::bind`
(src/lib.rs:140): an optional leading `+` or `-` sign followed by one or more
ASCII digits, rejecting anything else and any value outside
`[-2^31, 2^31 - 1]`. -/
def i32_from_str (s : String) : Option Int :=
  match s.data with
  | [] => none
  | c :: rest =>
      if c = '+' then i32_from_str_digits false rest
      else if c = '-' then i32_from_str_digits true rest
      else i32_from_str_digits false (c :: rest)

/-- Embeds the port step of `RageVTab::bind` (src/lib.rs:140-141): a parse
failure becomes the `Invalid port` error carrying the offending literal and the
usage synopsis. -/
def bind_port (s : String) : Except String Int :=
  match i32_from_str s with
  | some p => Except.ok p
  | none => Except.error ("Invalid port '" ++ s ++ "': must be an integer\n\n" ++ USAGE)

/-- Shallow embedding of `serde_json::Value`.  JSON numbers are embedded as
integers (the claims under verification only involve integral numbers); the
other variants mirror serde's. -/
inductive Json where
  | null
  | bool (b : Bool)
  | num (n : Int)
  | str (s : String)
  | arr (elems : List Json)
  | obj (fields : List (String × Json))

/-- One character of serde_json's compact string rendering: `"` and `\` are
backslash-escaped, control characters below 0x20 use `\b`, `\t`, `\n`, `\f`,
`\r` or `\u00XX` with lowercase hex, and everything else is emitted as is. -/
def json_escape_char (c : Char) : String :=
  if c = Char.ofNat 34 then "\\\""
  else if c = Char.ofNat 92 then "\\\\"
  else if c = Char.ofNat 8 then "\\b"
  else if c = Char.ofNat 9 then "\\t"
  else if c = Char.ofNat 10 then "\\n"
  else if c = Char.ofNat 12 then "\\f"
  else if c = Char.ofNat 13 then "\\r"
  else if c.toNat < 32 then
    "\\u00" ++ String.singleton (Nat.digitChar (c.toNat / 16))
      ++ String.singleton (Nat.digitChar (c.toNat % 16))
  else String.singleton c

/-- serde_json's quoted string rendering. -/
def json_quote (s : String) : String :=
  String.singleton (Char.ofNat 34)
    ++ String.join (s.data.map json_escape_char)
    ++ String.singleton (Char.ofNat 34)

mutual

/-- Embeds the `Display` rendering of `serde_json::Value` used by the
`format!("... (got: {})", key, other)` call in `decrypt_age_file`
(src/lib.rs:266-270): compact JSON serialization. -/
def renderJson : Json → String
  | Json.null => "null"
  | Json.bool true => "true"
  | Json.bool false => "false"
  | Json.num n => toString n
  | Json.str s => json_quote s
  | Json.arr xs => "[" ++ renderArr xs ++ "]"
  | Json.obj fs => "\x7b" ++ renderObj fs ++ "\x7d"

/-- Comma-separated rendering of array elements. -/
def renderArr : List Json → String
  | [] => ""
  | [x] => renderJson x
  | x :: y :: xs => renderJson x ++ "," ++ renderArr (y :: xs)

/-- Comma-separated rendering of object fields. -/
def renderObj : List (String × Json) → String
  | [] => ""
  | [kv] => json_quote kv.1 ++ ":" ++ renderJson kv.2
  | kv :: kv2 :: fs => json_quote kv.1 ++ ":" ++ renderJson kv.2 ++ "," ++ renderObj (kv2 :: fs)

end

/-- Embeds `serde_json::Map::get`: the decrypted document is a finite map from
string keys to values, embedded as an association list. -/
def lookup_key (map : List (String × Json)) (key : String) : Option Json :=
  (map.find? (fun kv => kv.1 == key)).map (fun kv => kv.2)

/-- Embeds the final `match map.get(key)` of `decrypt_age_file`
(src/lib.rs:264-272): a string value is returned verbatim (`s.clone()`), a
present non-string value produces the `not a JSON string` error whose text
interpolates the value's `Display` rendering, and an absent key produces the
`not found` error. -/
def extract_key (map : List (String × Json)) (key : String) : Except String String :=
  match lookup_key map key with
  | some (Json.str s) => Except.ok s
  | some other => Except.error
      ("Key '" ++ key ++ "' in secrets file is not a JSON string (got: "
        ++ renderJson other ++ ")")
  | none => Except.error ("Key '" ++ key ++ "' not found in secrets file")

/-- Embeds the payload-extraction tail of `decrypt_age_file`
(src/lib.rs:260-272): the decrypted contents are trimmed, handed to the JSON
parser (`serde_json::from_str` into a `Map`, embedded as the explicit
`parseDoc` parameter since serde is an external collaborator), a parse failure
becomes the `secrets file is not valid JSON` error, and a parsed document goes
to `extract_key`. -/
def extract_payload (parseDoc : String → Except String (List (String × Json)))
    (contents key : String) : Except String String :=
  match parseDoc contents.trim with
  | Except.error e => Except.error ("secrets file is not valid JSON: " ++ e)
  | Except.ok map => extract_key map key

/-- Embeds `RageBindData` (src/lib.rs:104-113): the bind-time state.  The
password is not a field; it survives only inside `create_secret_sql`. -/
structure RageBindData where
  host : String
  port : Int
  database : String
  user : String
  create_secret_sql : String
deriving DecidableEq, Repr

/-- Embeds the tail of `RageVTab::bind` (src/lib.rs:148-161): the selected
provider builds the statement from the already-parsed fields and the recovered
password, and the bind data is assembled. -/
def mk_bind_data (dbt : DbType) (host : String) (port : Int)
    (database user password : String) : RageBindData :=
  ⟨host, port, database, user,
    create_secret_sql (secret_type dbt) host port database user password⟩

/-- Embeds the confirmation message built by `RageVTab::func`
(src/lib.rs:184-188): note it interpolates `bind_data.database` raw, without
`escape_sql_string`. -/
def confirmation_msg (bd : RageBindData) : String :=
  "Secret 'duck_rage_" ++ bd.database ++ "' created for " ++ bd.user ++ "@"
    ++ bd.host ++ ":" ++ toString bd.port ++ "/" ++ bd.database

instance {α β : Type} [DecidableEq α] [DecidableEq β] : DecidableEq (Except α β) := fun a b =>
  match a, b with
  | Except.error x, Except.error y =>
      if h : x = y then Decidable.isTrue (by rw [h])
      else Decidable.isFalse (fun hh => by cases hh; exact h rfl)
  | Except.error _, Except.ok _ => Decidable.isFalse (fun hh => by cases hh)
  | Except.ok _, Except.error _ => Decidable.isFalse (fun hh => by cases hh)
  | Except.ok x, Except.ok y =>
      if h : x = y then Decidable.isTrue (by rw [h])
      else Decidable.isFalse (fun hh => by cases hh; exact h rfl)

/-- Observable outcome of one poll of `RageVTab::func`: the new value of the
`done` flag, the number of statement executions performed during the poll, the
rows written to the output chunk, and the poll's `Result`. -/
structure PollOutcome where
  done : Bool
  execs : Nat
  rows : List String
  result : Except String Unit
deriving DecidableEq, Repr

/-- Embeds `RageVTab::func` (src/lib.rs:170-192) as a state-passing function on
the `done` flag of `RageInitData`.  The `done.swap(true, Relaxed)` is the first
action of the poll: it atomically sets the flag and branches on the old value.
If the flag was already set, the poll emits zero rows and executes nothing.
Otherwise the compiled statement is executed via the external `exec` collaborator
(`execute_sql_on_current_db`, src/lib.rs:212-218); an execution error propagates
through `?` with no row emitted, while success emits the single confirmation
row. -/
def rageFunc (exec : String → Except String Unit) (bd : RageBindData)
    (done : Bool) : PollOutcome :=
  if done then ⟨true, 0, [], Except.ok ()⟩
  else
    match exec bd.create_secret_sql with
    | Except.error e => ⟨true, 1, [], Except.error e⟩
    | Except.ok _ => ⟨true, 1, [confirmation_msg bd], Except.ok ()⟩

/-- Runs `n` successive polls of `rageFunc` from a given `done` state,
returning the final state together with the total number of statement
executions and the total number of emitted rows. -/
def runPolls (exec : String → Except String Unit) (bd : RageBindData) :
    Nat → Bool → Bool × Nat × Nat
  | 0, st => (st, 0, 0)
  | Nat.succ n, st =>
      let o := rageFunc exec bd st
      let r := runPolls exec bd n o.done
      (r.1, o.execs + r.2.1, o.rows.length + r.2.2)

/-- Scanner for single-quoted SQL string literals: tracks whether the scan is
inside a literal, toggling at every quote character (a doubled quote inside a
literal toggles out and back in, leaving the state unchanged). -/
def scan_literals : Bool → List Char → Bool
  | inStr, [] => inStr
  | inStr, c :: cs => scan_literals (if c = sqc then !inStr else inStr) cs

/-- Weak lexical check: the scan of the text ends outside any single-quoted
literal, i.e. every string literal that is opened is closed.  This is strictly
weaker than SQL well-formedness — it says nothing about where the quotes sit;
full well-formedness of the registration statement is judged by
`parses_as_create_secret` below. -/
def literals_closed (s : String) : Bool :=
  !(scan_literals false s.data)

/-- Modelled from the spec: `s` is a decimal representation of the integer `n`
("a string representing a valid integer"): an optional leading `+` or `-` sign
followed by one or more ASCII digits, denoting `n` up to sign.  Used to compare
what the spec calls a valid integer with what `i32::from_str` accepts. -/
def representsInt (s : String) (n : Int) : Prop :=
  ∃ sign ds, s.data = sign ++ ds ∧ ds ≠ [] ∧ (∀ c ∈ ds, c.isDigit) ∧
    (((sign = [] ∨ sign = ['+']) ∧ n = (digitsVal ds : Int)) ∨
      (sign = ['-'] ∧ n = -(digitsVal ds : Int)))

/-- Modelled from the spec: the SQL lexical elements needed to judge whether
the registration statement is "syntactically well-formed".  The consuming SQL
engine (DuckDB) is an external collaborator, so its lexical rules are modelled:
a token is a word (an unquoted identifier, keyword or number over
`A-Z a-z 0-9 _`), a single-quoted string literal with `''` as the escape for an
embedded quote, a parenthesis, or a comma. -/
inductive SqlTok where
  | word (s : String)
  | strlit (s : String)
  | lparen
  | rparen
  | comma
deriving DecidableEq, Repr

/-- Characters of an unquoted SQL identifier, keyword or number. -/
def isIdentChar (c : Char) : Bool :=
  c.isAlpha || c.isDigit || c = '_'

/-- Consumes the body of a single-quoted literal (opening quote already
consumed), unescaping `''` to a quote, and returns the content together with
the input rest; `none` on an unterminated literal.  Fuel-indexed to keep the
recursion structural; fuel at least the input length suffices. -/
def lexStrBody : Nat → List Char → Option (List Char × List Char)
  | 0, _ => none
  | _ + 1, [] => none
  | f + 1, c :: cs =>
      if c = sqc then
        match cs with
        | c2 :: cs2 =>
            if c2 = sqc then
              match lexStrBody f cs2 with
              | some (content, rest) => some (sqc :: content, rest)
              | none => none
            else some ([], cs)
        | [] => some ([], [])
      else
        match lexStrBody f cs with
        | some (content, rest) => some (c :: content, rest)
        | none => none

/-- Modelled from the spec: the SQL lexer.  Spaces separate tokens; a quote
opens a string literal; an identifier character opens a maximal word; any other
character fails the lex.  Fuel-indexed (each step consumes at least one
character, so fuel at least the input length suffices). -/
def sql_lex_go : Nat → List Char → Option (List SqlTok)
  | 0, [] => some []
  | 0, _ :: _ => none
  | _ + 1, [] => some []
  | f + 1, c :: cs =>
      if c = ' ' then sql_lex_go f cs
      else if c = '(' then
        match sql_lex_go f cs with
        | some ts => some (SqlTok.lparen :: ts)
        | none => none
      else if c = ')' then
        match sql_lex_go f cs with
        | some ts => some (SqlTok.rparen :: ts)
        | none => none
      else if c = ',' then
        match sql_lex_go f cs with
        | some ts => some (SqlTok.comma :: ts)
        | none => none
      else if c = sqc then
        match lexStrBody cs.length cs with
        | some (content, rest) =>
            match sql_lex_go f rest with
            | some ts => some (SqlTok.strlit (String.mk content) :: ts)
            | none => none
        | none => none
      else if isIdentChar c then
        match sql_lex_go f ((c :: cs).dropWhile isIdentChar) with
        | some ts => some (SqlTok.word (String.mk ((c :: cs).takeWhile isIdentChar)) :: ts)
        | none => none
      else none

/-- Tokenizes a statement under the modelled SQL lexical rules. -/
def sql_lex (s : String) : Option (List SqlTok) :=
  sql_lex_go s.data.length s.data

/-- Modelled from the spec: the body of a registration statement is a
comma-separated sequence of key/value pairs — each key an unquoted word, each
value a word (keyword or number) or a string literal — closed by the final
parenthesis. -/
def pairs_ok : List SqlTok → Bool
  | SqlTok.word _ :: v :: rest =>
      (match v with
        | SqlTok.word _ => true
        | SqlTok.strlit _ => true
        | _ => false)
      && (match rest with
        | [SqlTok.rparen] => true
        | SqlTok.comma :: rest2 => pairs_ok rest2
        | _ => false)
  | _ => false

/-- Modelled from the spec: a registration statement is syntactically
well-formed when its text lexes under the SQL lexical rules and the token
stream has the shape `CREATE OR REPLACE SECRET <identifier> ( <key value>,
... )` — in particular the secret name must be one single unquoted
identifier token. -/
def parses_as_create_secret (s : String) : Bool :=
  match sql_lex s with
  | some (SqlTok.word "CREATE" :: SqlTok.word "OR" :: SqlTok.word "REPLACE"
      :: SqlTok.word "SECRET" :: SqlTok.word _ :: SqlTok.lparen :: rest) =>
      pairs_ok rest
  | _ => false

end DuckRage

namespace DuckRage

theorem escape_flatMap_eq_self (l : List Char) (h : ∀ c ∈ l, c ≠ sqc) :
    l.flatMap (fun c => if c = sqc then [sqc, sqc] else [c]) = l := by
  induction l with
  | nil => rfl
  | cons c cs ih =>
      rw [List.flatMap_cons, if_neg (h c (List.mem_cons_self c cs)),
        ih (fun x hx => h x (List.mem_cons_of_mem c hx))]
      rfl

theorem escape_eq_self (s : String) (h : ∀ c ∈ s.data, c ≠ sqc) :
    escape_sql_string s = s := by
  unfold escape_sql_string
  rw [escape_flatMap_eq_self s.data h]

theorem escape_quote_count (s : String) :
    (escape_sql_string s).data.count sqc = 2 * s.data.count sqc := by
  show (s.data.flatMap (fun c => if c = sqc then [sqc, sqc] else [c])).count sqc
      = 2 * s.data.count sqc
  induction s.data with
  | nil => rfl
  | cons c cs ih =>
      simp only [List.flatMap_cons, List.count_append, List.count_cons, ih]
      by_cases h : c = sqc
      · subst h; simp [List.count_cons, Nat.mul_add, Nat.add_comm]
      · simp [h, List.count_cons]

theorem scan_literals_parity (l : List Char) (b : Bool) :
    scan_literals b l = if l.count sqc % 2 = 0 then b else !b := by
  induction l generalizing b with
  | nil => simp [scan_literals]
  | cons c cs ih =>
      rw [scan_literals, ih]
      by_cases h : c = sqc
      · subst h
        have hcount : (sqc :: cs).count sqc = cs.count sqc + 1 := by
          simp [List.count_cons]
        rw [if_pos rfl, hcount]
        by_cases he : cs.count sqc % 2 = 0
        · rw [if_pos he, if_neg (by omega)]
        · rw [if_neg he, if_pos (by omega), Bool.not_not]
      · have hcount : (c :: cs).count sqc = cs.count sqc := by
          simp [List.count_cons, h]
        rw [if_neg h, hcount]

theorem literals_closed_iff (s : String) :
    literals_closed s = true ↔ s.data.count sqc % 2 = 0 := by
  unfold literals_closed
  rw [scan_literals_parity]
  by_cases h : s.data.count sqc % 2 = 0 <;> simp [h]

end DuckRage

namespace DuckRage

theorem digitChar_lt10_ne_sq (m : Nat) (h : m < 10) : Nat.digitChar m ≠ sqc := by
  interval_cases m <;> decide

theorem toDigitsCore_not_mem_sq :
    ∀ (f n : Nat) (ds : List Char), sqc ∉ ds → sqc ∉ Nat.toDigitsCore 10 f n ds := by
  intro f
  induction f with
  | zero => intro n ds h; exact h
  | succ f ih =>
      intro n ds h
      simp only [Nat.toDigitsCore]
      have hcons : sqc ∉ Nat.digitChar (n % 10) :: ds := by
        intro hmem
        rcases List.mem_cons.mp hmem with heq | hmem2
        · exact digitChar_lt10_ne_sq (n % 10) (Nat.mod_lt n (by omega)) heq.symm
        · exact h hmem2
      by_cases hz : n / 10 = 0
      · rw [if_pos hz]; exact hcons
      · rw [if_neg hz]; exact ih (n / 10) (Nat.digitChar (n % 10) :: ds) hcons

theorem nat_repr_count_sq (n : Nat) : (Nat.repr n).data.count sqc = 0 := by
  apply List.count_eq_zero_of_not_mem
  show sqc ∉ Nat.toDigits 10 n
  exact toDigitsCore_not_mem_sq (n + 1) n [] (by simp)

theorem int_toString_count_sq (p : Int) : (toString p).data.count sqc = 0 := by
  cases p with
  | ofNat m => exact nat_repr_count_sq m
  | negSucc m =>
      show (("-" : String) ++ Nat.repr (m + 1)).data.count sqc = 0
      rw [String.data_append, List.count_append, nat_repr_count_sq]
      decide

theorem secret_type_count_sq (t : DbType) : (secret_type t).data.count sqc = 0 := by
  cases t <;> decide

theorem create_secret_sql_count_even (t : DbType) (host : String) (port : Int)
    (database user password : String) :
    (create_secret_sql (secret_type t) host port database user password).data.count sqc % 2
      = 0 := by
  have hh := escape_quote_count host
  have hd := escape_quote_count database
  have hu := escape_quote_count user
  have hp := escape_quote_count password
  have hport := int_toString_count_sq port
  have htyp := secret_type_count_sq t
  have h1 : ("CREATE OR REPLACE SECRET duck_rage_" : String).data.count sqc = 0 := by decide
  have h2 : (" ( TYPE " : String).data.count sqc = 0 := by decide
  have h3 : (", HOST " : String).data.count sqc = 0 := by decide
  have h4 : (", PORT " : String).data.count sqc = 0 := by decide
  have h5 : (", DATABASE " : String).data.count sqc = 0 := by decide
  have h6 : (", USER " : String).data.count sqc = 0 := by decide
  have h7 : (", PASSWORD " : String).data.count sqc = 0 := by decide
  have h8 : (" )" : String).data.count sqc = 0 := by decide
  have h9 : (String.singleton sqc).data.count sqc = 1 := by decide
  simp only [create_secret_sql, String.data_append, List.count_append,
    hh, hd, hu, hp, hport, htyp, h1, h2, h3, h4, h5, h6, h7, h8, h9]
  omega

theorem literals_closed_create_secret_sql (t : DbType) (host : String) (port : Int)
    (database user password : String) :
    literals_closed (create_secret_sql (secret_type t) host port database user password)
      = true :=
  (literals_closed_iff _).mpr
    (create_secret_sql_count_even t host port database user password)

theorem runPolls_done (exec : String → Except String Unit) (bd : RageBindData) :
    ∀ n, runPolls exec bd n true = (true, 0, 0) := by
  intro n
  induction n with
  | zero => rfl
  | succ n ih => simp [runPolls, rageFunc, ih]

end DuckRage

namespace DuckRage

/-- C1: for a successfully bound call, polling is exactly-once.  The first poll
(`RageVTab::func` from `done = false`) atomically read-and-sets the done flag,
executes the compiled registration statement exactly once and emits exactly one
output row; every subsequent poll (state `done = true`) emits zero rows and
performs zero additional executions, and over any sequence of at least one poll
the totals are exactly one execution and one row. -/
theorem C1_polling_exactly_once (bd : RageBindData) (exec : String → Except String Unit)
    (hok : exec bd.create_secret_sql = Except.ok ()) :
    rageFunc exec bd false = ⟨true, 1, [confirmation_msg bd], Except.ok ()⟩ ∧
    (∀ n, runPolls exec bd n true = (true, 0, 0)) ∧
    (∀ n, 1 ≤ n → runPolls exec bd n false = (true, 1, 1)) := by
  have h1 : rageFunc exec bd false = ⟨true, 1, [confirmation_msg bd], Except.ok ()⟩ := by
    simp [rageFunc, hok]
  refine ⟨h1, runPolls_done exec bd, ?_⟩
  intro n hn
  obtain ⟨m, rfl⟩ : ∃ m, n = m + 1 := ⟨n - 1, by omega⟩
  simp [runPolls, h1, runPolls_done exec bd]

/-- Witness for C1 at a concrete bind and a spy executor that always succeeds:
three polls of the same call total exactly one execution and one row. -/
theorem C1_witness :
    runPolls (fun _ => Except.ok ())
      (mk_bind_data DbType.Postgres "db.example.com" 5432 "orders" "svc" "s3cret")
      3 false = (true, 1, 1) :=
  (C1_polling_exactly_once
    (mk_bind_data DbType.Postgres "db.example.com" 5432 "orders" "svc" "s3cret")
    (fun _ => Except.ok ()) rfl).2.2 3 (by omega)

/-- C4 counterexample: `done.swap(true, ..)` runs __before__ the statement is
executed (src/lib.rs:177-182), so when execution fails on a first poll the done
flag has already been flipped to `true` — refuting the claim that the flag is
left unflipped — even though the error propagates and no row is emitted. -/
theorem C4_counterexample :
    (rageFunc (fun _ => Except.error "connection refused")
        (mk_bind_data DbType.Postgres "db.example.com" 5432 "orders" "svc" "s3cret")
        false).done = true ∧
    (rageFunc (fun _ => Except.error "connection refused")
        (mk_bind_data DbType.Postgres "db.example.com" 5432 "orders" "svc" "s3cret")
        false).rows = [] ∧
    (rageFunc (fun _ => Except.error "connection refused")
        (mk_bind_data DbType.Postgres "db.example.com" 5432 "orders" "svc" "s3cret")
        false).result = Except.error "connection refused" :=
  ⟨rfl, rfl, rfl⟩

/-- C4 (amended): if statement execution fails on the first poll, the call
fails with the executor error (`StatementExecutionError`), no confirmation row
is emitted, and the done flag has already been atomically set to `true` before
execution was attempted; subsequent polls on the same call emit zero rows and
perform zero executions, so the call terminates without any automatic retry. -/
theorem C4_execution_failure (bd : RageBindData) (exec : String → Except String Unit)
    (e : String) (herr : exec bd.create_secret_sql = Except.error e) :
    rageFunc exec bd false = ⟨true, 1, [], Except.error e⟩ ∧
    (∀ n, runPolls exec bd n true = (true, 0, 0)) := by
  refine ⟨by simp [rageFunc, herr], runPolls_done exec bd⟩

/-- Witness for C4 (amended) at a concrete bind and an always-failing
executor. -/
theorem C4_witness :
    rageFunc (fun _ => Except.error "boom")
      (mk_bind_data DbType.Mysql "h" 1 "db" "u" "p") false
      = ⟨true, 1, [], Except.error "boom"⟩ :=
  (C4_execution_failure (mk_bind_data DbType.Mysql "h" 1 "db" "u" "p")
    (fun _ => Except.error "boom") "boom" rfl).1

/-- C5: on success the first poll emits exactly one row whose status string is
`Secret 'duck_rage_<database>' created for <user>@<host>:<port>/<database>`
with the bound values substituted, and the whole call (any number of polls)
emits exactly one row in total. -/
theorem C5_success_row (bd : RageBindData) (exec : String → Except String Unit)
    (hok : exec bd.create_secret_sql = Except.ok ()) :
    (rageFunc exec bd false).rows
      = ["Secret 'duck_rage_" ++ bd.database ++ "' created for " ++ bd.user ++ "@"
          ++ bd.host ++ ":" ++ toString bd.port ++ "/" ++ bd.database] ∧
    (∀ n, 1 ≤ n → (runPolls exec bd n false).2.2 = 1) := by
  constructor
  · simp [rageFunc, hok, confirmation_msg]
  · intro n hn
    obtain ⟨m, rfl⟩ : ∃ m, n = m + 1 := ⟨n - 1, by omega⟩
    simp [runPolls, rageFunc, hok, runPolls_done exec bd]

/-- Witness for C5: the end-to-end scenario row of the spec. -/
theorem C5_witness :
    (rageFunc (fun _ => Except.ok ())
        (mk_bind_data DbType.Postgres "db.example.com" 5432 "orders" "svc" "s3cret")
        false).rows
      = ["Secret 'duck_rage_orders' created for svc@db.example.com:5432/orders"] := by
  rw [(C5_success_row
    (mk_bind_data DbType.Postgres "db.example.com" 5432 "orders" "svc" "s3cret")
    (fun _ => Except.ok ()) rfl).1]
  decide

/-- C9: the confirmation row never contains the password — for two successful
invocations agreeing on host, port, database and user but with different
recovered passwords (hence different compiled statements), the emitted row
lists are identical. -/
theorem C9_row_password_independent (dbt : DbType) (host : String) (port : Int)
    (database user pw1 pw2 : String) (exec1 exec2 : String → Except String Unit)
    (h1 : exec1 (mk_bind_data dbt host port database user pw1).create_secret_sql
        = Except.ok ())
    (h2 : exec2 (mk_bind_data dbt host port database user pw2).create_secret_sql
        = Except.ok ()) :
    (rageFunc exec1 (mk_bind_data dbt host port database user pw1) false).rows
      = (rageFunc exec2 (mk_bind_data dbt host port database user pw2) false).rows := by
  have h1c : exec1 (create_secret_sql (secret_type dbt) host port database user pw1)
      = Except.ok () := h1
  have h2c : exec2 (create_secret_sql (secret_type dbt) host port database user pw2)
      = Except.ok () := h2
  simp [rageFunc, mk_bind_data, confirmation_msg, h1c, h2c]

/-- Witness for C9 at two concrete passwords. -/
theorem C9_witness :
    (rageFunc (fun _ => Except.ok ())
        (mk_bind_data DbType.Postgres "h" 5432 "db" "u" "hunter2") false).rows
      = (rageFunc (fun _ => Except.ok ())
        (mk_bind_data DbType.Postgres "h" 5432 "db" "u" "s3cret") false).rows :=
  C9_row_password_independent DbType.Postgres "h" 5432 "db" "u" "hunter2" "s3cret"
    (fun _ => Except.ok ()) (fun _ => Except.ok ()) rfl rfl

end DuckRage

namespace DuckRage

set_option maxRecDepth 1000000 in
/-- C2 counterexample: at the claim's own instance (database name `o'brien`)
the produced statement is not syntactically well-formed.  The code escapes the
database name in the unquoted secret-name identifier position too, so the text
lexes as the word `duck_rage_o`, an empty string literal and the word `brien`
instead of one secret-name identifier, and the statement fails to parse as
`CREATE OR REPLACE SECRET <identifier> ( ... )` — refuting the claim that the
resulting statement is syntactically well-formed. -/
theorem C2_counterexample :
    parses_as_create_secret
      (create_secret_sql (secret_type DbType.Postgres) "db.example.com" 5432
        "o'brien" "alice" "pw") = false ∧
    (sql_lex (create_secret_sql (secret_type DbType.Postgres) "db.example.com" 5432
        "o'brien" "alice" "pw")).map (List.take 7)
      = some [SqlTok.word "CREATE", SqlTok.word "OR", SqlTok.word "REPLACE",
          SqlTok.word "SECRET", SqlTok.word "duck_rage_o", SqlTok.strlit "",
          SqlTok.word "brien"] := by
  refine ⟨by decide, by decide⟩

set_option maxRecDepth 1000000 in
/-- C2 (amended): `create_secret_sql` embeds each of the four string fields
through `escape_sql_string`, which doubles every single-quote character (the
quote count doubles exactly); the port is embedded as a raw integer; every
single-quoted string literal in the statement is closed, for all inputs; and
for the database name `o'brien` the quote is doubled in both occurrences of
the name, as the explicit statement text shows.  However, while the statement
for a quote-free database name parses as a create-or-replace secret statement,
the statement for `o'brien` is not syntactically well-formed, because the
doubled quote lands in the unquoted secret-name identifier position. -/
theorem C2_statement_escaping :
    (∀ s : String, (escape_sql_string s).data.count sqc = 2 * s.data.count sqc) ∧
    (∀ (t : DbType) (host : String) (port : Int) (database user password : String),
      literals_closed (create_secret_sql (secret_type t) host port database user password)
        = true) ∧
    create_secret_sql (secret_type DbType.Postgres) "db.example.com" 5432 "o'brien"
        "alice" "pw"
      = "CREATE OR REPLACE SECRET duck_rage_o''brien ( TYPE postgres, HOST 'db.example.com', PORT 5432, DATABASE 'o''brien', USER 'alice', PASSWORD 'pw' )" ∧
    parses_as_create_secret
      (create_secret_sql (secret_type DbType.Postgres) "db.example.com" 5432
        "orders" "svc" "s3cret") = true ∧
    parses_as_create_secret
      (create_secret_sql (secret_type DbType.Postgres) "db.example.com" 5432
        "o'brien" "alice" "pw") = false := by
  refine ⟨escape_quote_count, literals_closed_create_secret_sql, by decide, by decide,
    by decide⟩

/-- C10: the credential name embedded in the executed statement is
`duck_rage_` followed by the __escaped__ database name, while the confirmation
row names `duck_rage_` followed by the __raw__ database name; the two coincide
for every database name without a single quote, and differ for `o'brien`. -/
theorem C10_statement_vs_row_name :
    (∀ (typ host : String) (port : Int) (database user password : String),
      ("CREATE OR REPLACE SECRET duck_rage_".data ++ (escape_sql_string database).data)
        <+: (create_secret_sql typ host port database user password).data) ∧
    (∀ bd : RageBindData,
      ("Secret 'duck_rage_".data ++ bd.database.data) <+: (confirmation_msg bd).data) ∧
    (∀ database : String, (∀ c ∈ database.data, c ≠ sqc) →
      "duck_rage_" ++ escape_sql_string database = "duck_rage_" ++ database) ∧
    "duck_rage_" ++ escape_sql_string "o'brien" ≠ "duck_rage_" ++ "o'brien" := by
  refine ⟨?_, ?_, ?_, by decide⟩
  · intro typ host port database user password
    refine ⟨(" ( TYPE " ++ typ ++ ", HOST " ++ String.singleton sqc
      ++ escape_sql_string host ++ String.singleton sqc ++ ", PORT " ++ toString port
      ++ ", DATABASE " ++ String.singleton sqc ++ escape_sql_string database
      ++ String.singleton sqc ++ ", USER " ++ String.singleton sqc
      ++ escape_sql_string user ++ String.singleton sqc ++ ", PASSWORD "
      ++ String.singleton sqc ++ escape_sql_string password ++ String.singleton sqc
      ++ " )").data, ?_⟩
    simp [create_secret_sql, String.data_append, List.append_assoc]
  · intro bd
    refine ⟨("' created for " ++ bd.user ++ "@" ++ bd.host ++ ":" ++ toString bd.port
      ++ "/" ++ bd.database).data, ?_⟩
    simp [confirmation_msg, String.data_append, List.append_assoc]
  · intro database h
    rw [escape_eq_self database h]

/-- Witness for C10: for a quote-free database name the two credential names
coincide. -/
theorem C10_witness :
    "duck_rage_" ++ escape_sql_string "orders" = "duck_rage_" ++ "orders" :=
  C10_statement_vs_row_name.2.2.1 "orders" (by decide)

/-- C3 counterexample: for the document mapping `pw` to the number `42`, the
`KeyTypeError` message interpolates the wrong-typed value itself (its JSON
rendering `42` occurs in the message), and does not name the value's kind (the
word `number` does not occur), refuting the claim that the error reports the
kind and never includes the value. -/
theorem C3_counterexample :
    extract_key [("pw", Json.num 42)] "pw"
      = Except.error "Key 'pw' in secrets file is not a JSON string (got: 42)" ∧
    (renderJson (Json.num 42)).data
      <:+: ("Key 'pw' in secrets file is not a JSON string (got: 42)").data ∧
    ¬ (("number").data
      <:+: ("Key 'pw' in secrets file is not a JSON string (got: 42)").data) := by
  refine ⟨by decide, by decide, by decide⟩

/-- C3 (amended): when the requested key is present but its value is not a
string, extraction fails with a `KeyTypeError` that reports the key and the
offending value rendered as JSON — thereby revealing its kind, but also
including the wrong-typed value itself in the error message. -/
theorem C3_keytype_error (map : List (String × Json)) (key : String) (v : Json)
    (hfind : lookup_key map key = some v) (hnotstr : ∀ s, v ≠ Json.str s) :
    extract_key map key
      = Except.error ("Key '" ++ key ++ "' in secrets file is not a JSON string (got: "
          ++ renderJson v ++ ")") := by
  unfold extract_key
  rw [hfind]
  cases v with
  | str s => exact absurd rfl (hnotstr s)
  | null => rfl
  | bool b => rfl
  | num n => rfl
  | arr xs => rfl
  | obj fs => rfl

/-- Witness for C3 (amended) at a concrete boolean-valued key. -/
theorem C3_witness :
    extract_key [("token", Json.bool true)] "token"
      = Except.error ("Key '" ++ "token" ++ "' in secrets file is not a JSON string (got: "
          ++ renderJson (Json.bool true) ++ ")") :=
  C3_keytype_error [("token", Json.bool true)] "token" (Json.bool true) rfl
    (fun _ h => Json.noConfusion h)

/-- C8: payload extraction parses the plaintext after trimming surrounding
whitespace; a parse failure becomes the `MalformedPayloadError`
(`secrets file is not valid JSON`), an absent key becomes the
`KeyNotFoundError`, and a string-valued key is returned verbatim. -/
theorem C8_extraction (parseDoc : String → Except String (List (String × Json)))
    (contents key : String) :
    (∀ e, parseDoc contents.trim = Except.error e →
      extract_payload parseDoc contents key
        = Except.error ("secrets file is not valid JSON: " ++ e)) ∧
    (∀ map, parseDoc contents.trim = Except.ok map → lookup_key map key = none →
      extract_payload parseDoc contents key
        = Except.error ("Key '" ++ key ++ "' not found in secrets file")) ∧
    (∀ map s, parseDoc contents.trim = Except.ok map →
      lookup_key map key = some (Json.str s) →
      extract_payload parseDoc contents key = Except.ok s) := by
  refine ⟨?_, ?_, ?_⟩
  · intro e he
    simp [extract_payload, he]
  · intro map hm hk
    simp [extract_payload, hm, extract_key, hk]
  · intro map s hm hk
    simp [extract_payload, hm, extract_key, hk]

/-- Witness for C8: a constant parser returning a one-field document yields the
field verbatim, and a constant failing parser yields the malformed-payload
error. -/
theorem C8_witness :
    extract_payload (fun _ => Except.ok [("pw", Json.str "hunter2")]) "payload" "pw"
      = Except.ok "hunter2" ∧
    extract_payload (fun _ => Except.error "expected value") "payload" "pw"
      = Except.error ("secrets file is not valid JSON: " ++ "expected value") :=
  ⟨(C8_extraction (fun _ => Except.ok [("pw", Json.str "hunter2")]) "payload" "pw").2.2
      [("pw", Json.str "hunter2")] "hunter2" rfl rfl,
    (C8_extraction (fun _ => Except.error "expected value") "payload" "pw").1
      "expected value" rfl⟩

end DuckRage

namespace DuckRage

set_option maxRecDepth 100000 in
/-- C6 counterexample: for the unknown backend kind `ORACLE`, the error embeds
the ASCII-lowercased value `oracle`; the offending value as supplied, `ORACLE`,
does not occur anywhere in the error message, refuting the claim that the
error includes the offending value. -/
theorem C6_counterexample :
    bind_db_type "ORACLE"
      = Except.error ("Unknown db_type '" ++ "oracle"
          ++ "'. Supported: postgres, mysql" ++ "\n\n" ++ USAGE) ∧
    ¬ (("ORACLE").data
      <:+: ("Unknown db_type '" ++ "oracle"
          ++ "'. Supported: postgres, mysql" ++ "\n\n" ++ USAGE).data) := by
  refine ⟨by decide, by decide⟩

/-- C6 (amended): every string whose ASCII-lowercased form is a supported alias
parses to the corresponding provider (whose secret-type tags are `postgres` and
`mysql`); every other string fails with an error embedding the lowercased
offending value, the supported set, and the usage synopsis. -/
theorem C6_backend_parsing :
    (∀ s : String,
      to_ascii_lowercase s = "postgres" ∨ to_ascii_lowercase s = "postgresql" →
      bind_db_type s = Except.ok DbType.Postgres) ∧
    (∀ s : String, to_ascii_lowercase s = "mysql" →
      bind_db_type s = Except.ok DbType.Mysql) ∧
    (secret_type DbType.Postgres = "postgres" ∧ secret_type DbType.Mysql = "mysql") ∧
    (∀ s : String, to_ascii_lowercase s ≠ "postgres" →
      to_ascii_lowercase s ≠ "postgresql" → to_ascii_lowercase s ≠ "mysql" →
      bind_db_type s = Except.error ("Unknown db_type '" ++ to_ascii_lowercase s
        ++ "'. Supported: postgres, mysql" ++ "\n\n" ++ USAGE)) := by
  refine ⟨?_, ?_, ⟨rfl, rfl⟩, ?_⟩
  · intro s h
    simp only [bind_db_type, DbType.from_str]
    rw [if_pos h]
  · intro s h
    simp only [bind_db_type, DbType.from_str]
    rw [h]
    decide
  · intro s h1 h2 h3
    simp only [bind_db_type, DbType.from_str]
    rw [if_neg (not_or.mpr ⟨h1, h2⟩), if_neg h3]

/-- Witness for C6 (amended) at mixed-case spellings of the supported
aliases. -/
theorem C6_witness :
    bind_db_type "PostgreSQL" = Except.ok DbType.Postgres ∧
    bind_db_type "MySQL" = Except.ok DbType.Mysql :=
  ⟨C6_backend_parsing.1 "PostgreSQL" (Or.inr (by decide)),
    C6_backend_parsing.2.1 "MySQL" (by decide)⟩

end DuckRage

namespace DuckRage

theorem i32_from_str_nil (s : String) (h : s.data = []) : i32_from_str s = none := by
  unfold i32_from_str
  rw [h]

theorem i32_from_str_cons (c : Char) (cs : List Char) (s : String) (h : s.data = c :: cs) :
    i32_from_str s
      = if c = '+' then i32_from_str_digits false cs
        else if c = '-' then i32_from_str_digits true cs
        else i32_from_str_digits false (c :: cs) := by
  unfold i32_from_str
  rw [h]

theorem i32_from_str_digits_some (neg : Bool) (ds : List Char) (n : Int)
    (h : i32_from_str_digits neg ds = some n) :
    ds ≠ [] ∧ (∀ c ∈ ds, c.isDigit = true) ∧
      n = (if neg then -(digitsVal ds : Int) else (digitsVal ds : Int)) := by
  simp only [i32_from_str_digits] at h
  by_cases hne : ds = []
  · rw [if_pos hne] at h; cases h
  · rw [if_neg hne] at h
    by_cases hdig : ds.all Char.isDigit
    · rw [if_pos hdig] at h
      refine ⟨hne, fun c hc => List.all_eq_true.mp hdig c hc, ?_⟩
      cases neg with
      | false =>
          simp only [Bool.false_eq_true, if_false] at h ⊢
          by_cases hr : digitsVal ds < 2 ^ 31
          · rw [if_pos hr] at h
            exact (Option.some.injEq _ _ ▸ h).symm
          · rw [if_neg hr] at h; cases h
      | true =>
          simp only [if_true] at h ⊢
          by_cases hr : digitsVal ds ≤ 2 ^ 31
          · rw [if_pos hr] at h
            exact (Option.some.injEq _ _ ▸ h).symm
          · rw [if_neg hr] at h; cases h
    · rw [if_neg hdig] at h; cases h

theorem i32_from_str_digits_pos_complete (ds : List Char)
    (hne : ds ≠ []) (hdig : ∀ c ∈ ds, c.isDigit = true)
    (hr : digitsVal ds < 2 ^ 31) :
    i32_from_str_digits false ds = some (digitsVal ds : Int) := by
  simp only [i32_from_str_digits]
  rw [if_neg hne, if_pos (List.all_eq_true.mpr hdig)]
  simp only [Bool.false_eq_true, if_false]
  rw [if_pos hr]

theorem i32_from_str_digits_neg_complete (ds : List Char)
    (hne : ds ≠ []) (hdig : ∀ c ∈ ds, c.isDigit = true)
    (hr : digitsVal ds ≤ 2 ^ 31) :
    i32_from_str_digits true ds = some (-(digitsVal ds : Int)) := by
  simp only [i32_from_str_digits]
  rw [if_neg hne, if_pos (List.all_eq_true.mpr hdig)]
  simp only [if_true]
  rw [if_pos hr]

theorem digit_ne_plus (c : Char) (h : c.isDigit = true) : c ≠ '+' := by
  intro he
  subst he
  cases h

theorem digit_ne_minus (c : Char) (h : c.isDigit = true) : c ≠ '-' := by
  intro he
  subst he
  cases h

theorem i32_from_str_sound (s : String) (n : Int) (h : i32_from_str s = some n) :
    representsInt s n := by
  rcases hdata : s.data with _ | ⟨c, cs⟩
  · rw [i32_from_str_nil s hdata] at h; cases h
  · rw [i32_from_str_cons c cs s hdata] at h
    by_cases hp : c = '+'
    · rw [if_pos hp] at h
      obtain ⟨hne, hdig, hn⟩ := i32_from_str_digits_some false cs n h
      exact ⟨['+'], cs, by rw [hdata, hp]; rfl, hne, hdig,
        Or.inl ⟨Or.inr rfl, by simpa using hn⟩⟩
    · rw [if_neg hp] at h
      by_cases hm : c = '-'
      · rw [if_pos hm] at h
        obtain ⟨hne, hdig, hn⟩ := i32_from_str_digits_some true cs n h
        exact ⟨['-'], cs, by rw [hdata, hm]; rfl, hne, hdig,
          Or.inr ⟨rfl, by simpa using hn⟩⟩
      · rw [if_neg hm] at h
        obtain ⟨_, hdig, hn⟩ := i32_from_str_digits_some false (c :: cs) n h
        exact ⟨[], c :: cs, hdata, List.cons_ne_nil c cs, hdig,
          Or.inl ⟨Or.inl rfl, by simpa using hn⟩⟩

end DuckRage

namespace DuckRage

set_option maxRecDepth 100000 in
/-- C7 counterexample: `2147483648` is a string representing a valid integer
(one more than `i32::MAX`), yet binding fails with the `Invalid port` error,
refuting the claim that every string representing a valid integer parses
successfully. -/
theorem C7_counterexample :
    representsInt "2147483648" 2147483648 ∧
    bind_port "2147483648"
      = Except.error ("Invalid port '" ++ "2147483648"
          ++ "': must be an integer\n\n" ++ USAGE) := by
  constructor
  · exact ⟨[], "2147483648".data, rfl, by decide, by decide,
      Or.inl ⟨Or.inl rfl, by decide⟩⟩
  · decide

/-- C7 (amended): every string that does not represent an integer fails with
the `Invalid port` error carrying the offending literal and the usage synopsis;
every string representing an integer within the signed 32-bit range
(including negative integers) parses successfully.  (Strings representing
integers outside that range also fail, per the counterexample.) -/
theorem C7_port_parsing :
    (∀ (s : String) (n : Int), representsInt s n → -(2 ^ 31) ≤ n → n < 2 ^ 31 →
      i32_from_str s = some n) ∧
    (∀ s : String, (∀ n : Int, ¬ representsInt s n) →
      bind_port s = Except.error ("Invalid port '" ++ s
        ++ "': must be an integer\n\n" ++ USAGE)) := by
  constructor
  · intro s n hrep hlo hhi
    obtain ⟨sign, ds, hdata, hne, hdig, hform⟩ := hrep
    rcases hform with ⟨hs, hn⟩ | ⟨hs, hn⟩
    · have hcast : (digitsVal ds : Int) < 2 ^ 31 := by rw [← hn]; exact hhi
      have hrange : digitsVal ds < 2 ^ 31 := by exact_mod_cast hcast
      rcases hs with hs0 | hsp
      · subst hs0
        rw [List.nil_append] at hdata
        obtain ⟨c, cs, rfl⟩ := List.exists_cons_of_ne_nil hne
        have hc : c.isDigit = true := hdig c (List.mem_cons_self c cs)
        rw [i32_from_str_cons c cs s hdata, if_neg (digit_ne_plus c hc),
          if_neg (digit_ne_minus c hc),
          i32_from_str_digits_pos_complete (c :: cs) (List.cons_ne_nil c cs) hdig hrange,
          hn]
      · subst hsp
        rw [i32_from_str_cons '+' ds s (by rw [hdata]; rfl), if_pos rfl,
          i32_from_str_digits_pos_complete ds hne hdig hrange, hn]
    · subst hs
      have hcast : -(2 ^ 31 : Int) ≤ -(digitsVal ds : Int) := by rw [← hn]; exact hlo
      have hcast2 : (digitsVal ds : Int) ≤ 2 ^ 31 := by omega
      have hrange : digitsVal ds ≤ 2 ^ 31 := by exact_mod_cast hcast2
      rw [i32_from_str_cons '-' ds s (by rw [hdata]; rfl), if_neg (by decide),
        if_pos rfl, i32_from_str_digits_neg_complete ds hne hdig hrange, hn]
  · intro s hnone
    cases hparse : i32_from_str s with
    | none => simp [bind_port, hparse]
    | some n => exact absurd (i32_from_str_sound s n hparse) (hnone n)

/-- Witness for C7 (amended): a negative in-range integer parses, and a
non-integer string produces the `Invalid port` error. -/
theorem C7_witness :
    i32_from_str "-5432" = some (-5432) ∧
    bind_port "henlo" = Except.error ("Invalid port '" ++ "henlo"
      ++ "': must be an integer\n\n" ++ USAGE) := by
  constructor
  · exact C7_port_parsing.1 "-5432" (-5432)
      ⟨['-'], ['5', '4', '3', '2'], by decide, by decide, by decide,
        Or.inr ⟨rfl, by decide⟩⟩
      (by decide) (by decide)
  · apply C7_port_parsing.2
    intro n hrep
    obtain ⟨sign, ds, hdata, hne, hdig, _⟩ := hrep
    obtain ⟨c, cs, rfl⟩ := List.exists_cons_of_ne_nil hne
    have hcmem : c ∈ ("henlo").data := by
      rw [hdata]
      exact List.mem_append_right sign (List.mem_cons_self c cs)
    have h1 : c.isDigit = true := hdig c (List.mem_cons_self c cs)
    have h2 : c.isDigit = false := by
      have hall : ∀ x ∈ ("henlo").data, x.isDigit = false := by decide
      exact hall c hcmem
    rw [h1] at h2
    cases h2

end DuckRage
